import Mathlib

/-!
Shallow embedding of the budget chart script (script.js): input validation
and collection (validateAndCollectData), chart rendering and chart
lifecycle (renderChart), and the download handler registered on page load.
JavaScript numbers are modelled as exact rationals extended with the
special values NaN and the two infinities; binary64 rounding is abstracted
to exact rational arithmetic.
-/

namespace Budget

/-- A JavaScript numeric value: NaN, one of the two infinities, or a
finite value modelled as an exact rational. -/
inductive JsNum where
  | nan
  | inf
  | negInf
  | finite (q : ℚ)
  deriving DecidableEq

/-- Negation of a JavaScript number. -/
def JsNum.neg : JsNum → JsNum
  | .nan => .nan
  | .inf => .negInf
  | .negInf => .inf
  | .finite q => .finite (-q)

/-- The comparison `x < 0` of JavaScript, where a NaN comparison is false. -/
def JsNum.ltZero : JsNum → Bool
  | .nan => false
  | .inf => false
  | .negInf => true
  | .finite q => decide (q < 0)

/-- Whitespace in the sense of the ECMAScript WhiteSpace and LineTerminator
productions, as used by String.prototype.trim and by string-to-number
conversion. -/
def isJsWhitespace (c : Char) : Bool :=
  c = ' ' || c = '\t' || c = '\n' || c = '\r' ||
  c = Char.ofNat 0x0B || c = Char.ofNat 0x0C || c = Char.ofNat 0xA0 ||
  c = Char.ofNat 0x1680 || (0x2000 ≤ c.toNat && c.toNat ≤ 0x200A) ||
  c = Char.ofNat 0x2028 || c = Char.ofNat 0x2029 || c = Char.ofNat 0x202F ||
  c = Char.ofNat 0x205F || c = Char.ofNat 0x3000 || c = Char.ofNat 0xFEFF

/-- Drop leading and trailing JavaScript whitespace from a character list. -/
def jsTrimList (cs : List Char) : List Char :=
  ((cs.dropWhile isJsWhitespace).reverse.dropWhile isJsWhitespace).reverse

/-- String.prototype.trim of JavaScript. -/
def jsTrim (s : String) : String := ⟨jsTrimList s.data⟩

/-- Decimal digit test. -/
def isDigitChar (c : Char) : Bool := '0' ≤ c && c ≤ '9'

/-- Numeric value of a decimal digit. -/
def digitVal (c : Char) : Nat := c.toNat - '0'.toNat

/-- Numeric value of a list of decimal digits, most significant first. -/
def digitsVal (ds : List Char) : Nat := ds.foldl (fun a c => 10 * a + digitVal c) 0

/-- Hexadecimal digit test. -/
def isHexDigitChar (c : Char) : Bool :=
  isDigitChar c || ('a' ≤ c && c ≤ 'f') || ('A' ≤ c && c ≤ 'F')

/-- Numeric value of a hexadecimal digit. -/
def hexDigitVal (c : Char) : Nat :=
  if isDigitChar c then digitVal c
  else if 'a' ≤ c && c ≤ 'f' then c.toNat - 'a'.toNat + 10
  else c.toNat - 'A'.toNat + 10

/-- Numeric value of a list of hexadecimal digits, most significant first. -/
def hexVal (ds : List Char) : Nat := ds.foldl (fun a c => 16 * a + hexDigitVal c) 0

/-- Octal digit test. -/
def isOctDigitChar (c : Char) : Bool := '0' ≤ c && c ≤ '7'

/-- Numeric value of a list of octal digits, most significant first. -/
def octVal (ds : List Char) : Nat := ds.foldl (fun a c => 8 * a + digitVal c) 0

/-- Binary digit test. -/
def isBinDigitChar (c : Char) : Bool := c = '0' || c = '1'

/-- Numeric value of a list of binary digits, most significant first. -/
def binVal (ds : List Char) : Nat := ds.foldl (fun a c => 2 * a + digitVal c) 0

/-- Parse an optional exponent part `e`/`E` with optional sign and at least
one digit.  Returns the exponent and the remaining input; when no valid
exponent part is present nothing is consumed and the exponent is 0, which
matches the longest-valid-prefix behaviour of parseFloat and the
full-match requirement of string-to-number conversion. -/
def parseExponent (cs : List Char) : Int × List Char :=
  match cs with
  | [] => (0, [])
  | c :: rest =>
    if c = 'e' || c = 'E' then
      match rest with
      | '+' :: rest2 =>
        let ds := rest2.takeWhile isDigitChar
        if ds.isEmpty then (0, cs) else ((digitsVal ds : Int), rest2.drop ds.length)
      | '-' :: rest2 =>
        let ds := rest2.takeWhile isDigitChar
        if ds.isEmpty then (0, cs) else (-(digitsVal ds : Int), rest2.drop ds.length)
      | _ =>
        let ds := rest.takeWhile isDigitChar
        if ds.isEmpty then (0, cs) else ((digitsVal ds : Int), rest.drop ds.length)
    else (0, cs)

/-- Parse an unsigned decimal mantissa: digits, optionally a decimal point
with further digits; at least one digit must be present overall.  Returns
the value as a numerator-denominator pair and the remaining input. -/
def parseMantissa (cs : List Char) : Option ((Nat × Nat) × List Char) :=
  let ip := cs.takeWhile isDigitChar
  let afterInt := cs.drop ip.length
  match afterInt with
  | '.' :: rest =>
    let fp := rest.takeWhile isDigitChar
    if ip.isEmpty && fp.isEmpty then none
    else some ((digitsVal ip * 10 ^ fp.length + digitsVal fp, 10 ^ fp.length),
               rest.drop fp.length)
  | _ =>
    if ip.isEmpty then none else some ((digitsVal ip, 1), afterInt)

/-- Exact rational value of an unsigned mantissa n over d scaled by the
signed power of ten e. -/
def decLiteralVal (n d : Nat) (e : Int) : ℚ :=
  if 0 ≤ e then mkRat (n * 10 ^ e.toNat) d else mkRat n (d * 10 ^ (-e).toNat)

/-- Parse an unsigned StrDecimalLiteral without sign: either the word
Infinity or a mantissa with optional exponent.  Returns the value and the
remaining (unconsumed) input, or none when no prefix parses. -/
def parseUnsignedDecimal (cs : List Char) : Option (JsNum × List Char) :=
  if cs.take 8 = "Infinity".data then some (JsNum.inf, cs.drop 8)
  else
    match parseMantissa cs with
    | none => none
    | some (nd, rest) =>
      let er := parseExponent rest
      some (JsNum.finite (decLiteralVal nd.1 nd.2 er.1), er.2)

/-- The parseFloat function of JavaScript on a character list: skip leading
whitespace, then read an optional sign and the longest valid decimal
literal prefix; NaN when no prefix parses. -/
def jsParseFloatList (cs0 : List Char) : JsNum :=
  let cs := cs0.dropWhile isJsWhitespace
  match cs with
  | '+' :: rest =>
    match parseUnsignedDecimal rest with
    | some (v, _) => v
    | none => JsNum.nan
  | '-' :: rest =>
    match parseUnsignedDecimal rest with
    | some (v, _) => JsNum.neg v
    | none => JsNum.nan
  | _ =>
    match parseUnsignedDecimal cs with
    | some (v, _) => v
    | none => JsNum.nan

/-- The parseFloat function of JavaScript. -/
def jsParseFloat (s : String) : JsNum := jsParseFloatList s.data

/-- Full-match unsigned decimal conversion used by string-to-number: the
whole remaining input must be consumed by the decimal literal. -/
def jsToNumberUnsigned (cs : List Char) (negFlag : Bool) : JsNum :=
  match parseUnsignedDecimal cs with
  | some (v, []) => if negFlag then v.neg else v
  | _ => JsNum.nan

/-- Signed decimal part of string-to-number conversion. -/
def jsToNumberDecimal (cs : List Char) : JsNum :=
  match cs with
  | '+' :: rest => jsToNumberUnsigned rest false
  | '-' :: rest => jsToNumberUnsigned rest true
  | _ => jsToNumberUnsigned cs false

/-- The ToNumber conversion of JavaScript applied to a string (the
conversion performed by the global isNaN): trim, empty becomes 0, a full
StrNumericLiteral (decimal, hexadecimal, octal or binary) becomes its
value, anything else becomes NaN. -/
def jsToNumberList (cs0 : List Char) : JsNum :=
  let cs := jsTrimList cs0
  match cs with
  | [] => JsNum.finite 0
  | '0' :: x :: rest =>
    if (x = 'x' || x = 'X') && !rest.isEmpty && rest.all isHexDigitChar then
      JsNum.finite (mkRat (hexVal rest) 1)
    else if (x = 'o' || x = 'O') && !rest.isEmpty && rest.all isOctDigitChar then
      JsNum.finite (mkRat (octVal rest) 1)
    else if (x = 'b' || x = 'B') && !rest.isEmpty && rest.all isBinDigitChar then
      JsNum.finite (mkRat (binVal rest) 1)
    else jsToNumberDecimal cs
  | _ => jsToNumberDecimal cs

/-- The ToNumber conversion of JavaScript on a string value. -/
def jsToNumber (s : String) : JsNum := jsToNumberList s.data

/-- The global isNaN of JavaScript applied to a string: convert with
ToNumber and test for NaN. -/
def jsIsNaN (s : String) : Bool := decide (jsToNumber s = JsNum.nan)

/-- An input field of the form: its text value and whether its class list
currently contains the Bootstrap is-invalid marker. -/
structure Field where
  value : String
  isInvalid : Bool
  deriving DecidableEq

/-- The 24 form inputs: the elements matched by the income selector and by
the expense selector, each in document (calendar) order. -/
structure FormState where
  incomeInputs : List Field
  expenseInputs : List Field
  deriving DecidableEq

/-- The record returned by validateAndCollectData. -/
structure ValidationResult where
  isValid : Bool
  incomeData : List JsNum
  expenseData : List JsNum
  deriving DecidableEq

/-- Body of the per-input callback of validateAndCollectData: trim the
value; empty pushes 0 and clears the marker; a value that fails the isNaN
test or whose parseFloat is negative pushes 0, sets the marker and clears
the overall flag; otherwise the parseFloat value is pushed and the marker
cleared.  Returns the updated field, the pushed entry and the updated
overall flag. -/
def processField (f : Field) (isValid : Bool) : Field × JsNum × Bool :=
  let value := jsTrim f.value
  if value = "" then
    ({ f with isInvalid := false }, JsNum.finite 0, isValid)
  else if jsIsNaN value || (jsParseFloat value).ltZero then
    ({ f with isInvalid := true }, JsNum.finite 0, false)
  else
    ({ f with isInvalid := false }, jsParseFloat value, isValid)

/-- One forEach loop of validateAndCollectData over a list of inputs,
threading the overall validity flag.  Returns the updated fields, the
collected data array and the final flag. -/
def collectSeries : List Field → Bool → List Field × List JsNum × Bool
  | [], isValid => ([], [], isValid)
  | f :: fs, isValid =>
    let r := processField f isValid
    let rs := collectSeries fs r.2.2
    (r.1 :: rs.1, r.2.1 :: rs.2.1, rs.2.2)

/-- validateAndCollectData of script.js: validate and collect the income
inputs, then the expense inputs, starting from isValid = true; the marker
mutations are returned as the updated form state. -/
def validateAndCollectData (s : FormState) : FormState × ValidationResult :=
  let ri := collectSeries s.incomeInputs true
  let re := collectSeries s.expenseInputs ri.2.2
  ({ incomeInputs := ri.1, expenseInputs := re.1 },
   { isValid := re.2.2, incomeData := ri.2.1, expenseData := re.2.1 })

/-- Whether a single field fails validation: trimmed text non-empty and
either rejected by the isNaN test or parsed negative by parseFloat. -/
def fieldInvalidB (f : Field) : Bool :=
  let value := jsTrim f.value
  if value = "" then false
  else jsIsNaN value || (jsParseFloat value).ltZero

/-- The series entry contributed by a single field. -/
def fieldEntry (f : Field) : JsNum :=
  let value := jsTrim f.value
  if value = "" then JsNum.finite 0
  else if jsIsNaN value || (jsParseFloat value).ltZero then JsNum.finite 0
  else jsParseFloat value

/-- A field with its invalid marker re-evaluated from its own text. -/
def markField (f : Field) : Field := { f with isInvalid := fieldInvalidB f }

/-- Character of a single decimal digit. -/
def digitChar (n : Nat) : Char := Char.ofNat (48 + n)

/-- Decimal digit characters of a natural number, most significant first,
computed with explicit fuel. -/
def natDigitsAux : Nat → Nat → List Char
  | 0, _ => []
  | fuel + 1, n => if n < 10 then [digitChar n] else
      natDigitsAux fuel (n / 10) ++ [digitChar (n % 10)]

/-- Decimal digit characters of a natural number, most significant first. -/
def natToDigitList (n : Nat) : List Char := natDigitsAux (n + 1) n

/-- Insert a thousands separator after every third character of a reversed
digit list; the counter tracks digits emitted since the last separator. -/
def groupRev : List Char → Nat → List Char
  | [], _ => []
  | c :: cs, k =>
    if k = 3 then ',' :: c :: groupRev cs 1
    else c :: groupRev cs (k + 1)

/-- Decimal rendering of a natural number with comma thousands
separators, as produced by toLocaleString in the default locale. -/
def groupDigits (n : Nat) : String :=
  ⟨(groupRev (natToDigitList n).reverse 0).reverse⟩

/-- Round the absolute value of a rational to an integer count of
thousandths, half away from zero (the default rounding of
Number.prototype.toLocaleString at its default three fraction digits). -/
def roundMilli (q : ℚ) : Nat :=
  (2000 * q.num.natAbs + q.den) / (2 * q.den)

/-- Strip trailing zero characters. -/
def stripTrailingZeros (cs : List Char) : List Char :=
  (cs.reverse.dropWhile (fun c => c = '0')).reverse

/-- Fractional part rendering of a thousandths count in 0..999: empty for
zero, else a point followed by the three digits with leading zeros and
trailing zeros stripped. -/
def fracPart (fp : Nat) : String :=
  if fp = 0 then ""
  else
    let s3 : List Char :=
      if fp < 10 then '0' :: '0' :: natToDigitList fp
      else if fp < 100 then '0' :: natToDigitList fp
      else natToDigitList fp
    "." ++ ⟨stripTrailingZeros s3⟩

/-- Number.prototype.toLocaleString in the default en locale: comma
thousands separators and at most three fraction digits. -/
def jsToLocaleString : JsNum → String
  | .nan => "NaN"
  | .inf => "∞"
  | .negInf => "-∞"
  | .finite q =>
    let m := roundMilli q
    let base := groupDigits (m / 1000) ++ fracPart (m % 1000)
    if q.num < 0 && m ≠ 0 then "-" ++ base else base

/-- The fixed category labels of the chart. -/
def monthLabels : List String :=
  ["Jan", "Feb", "Mar", "Apr", "May", "Jun",
   "Jul", "Aug", "Sep", "Oct", "Nov", "Dec"]

/-- One dataset entry of the chart configuration. -/
structure Dataset where
  label : String
  data : List JsNum
  backgroundColor : String
  borderColor : String
  borderWidth : Nat

/-- The argument object passed to the tooltip label callback: the label of
the hovered dataset and the parsed y value of the hovered bar. -/
structure TooltipContext where
  datasetLabel : String
  parsedY : JsNum

/-- The configuration object passed to the Chart constructor, flattened:
chart type, category labels, the two datasets, the y axis options and the
legend and tooltip plugin options. -/
structure ChartConfig where
  type : String
  labels : List String
  datasets : List Dataset
  responsive : Bool
  beginAtZero : Bool
  yTicksCallback : JsNum → String
  legendDisplay : Bool
  legendPosition : String
  tooltipLabel : TooltipContext → String

/-- The configuration built inside renderChart from the collected income
and expense arrays. -/
def mkChartConfig (incomeData expenseData : List JsNum) : ChartConfig where
  type := "bar"
  labels := monthLabels
  datasets :=
    [{ label := "Income", data := incomeData,
       backgroundColor := "rgba(40, 167, 69, 0.7)",
       borderColor := "rgba(40, 167, 69, 1)", borderWidth := 1 },
     { label := "Expenses", data := expenseData,
       backgroundColor := "rgba(220, 53, 69, 0.7)",
       borderColor := "rgba(220, 53, 69, 1)", borderWidth := 1 }]
  responsive := true
  beginAtZero := true
  yTicksCallback := fun value => "$" ++ jsToLocaleString value
  legendDisplay := true
  legendPosition := "top"
  tooltipLabel := fun context =>
    context.datasetLabel ++ ": $" ++ jsToLocaleString context.parsedY

/-- A chart object created by the Chart constructor: its configuration and
whether destroy has been called on it. -/
structure Chart where
  config : ChartConfig
  destroyed : Bool

/-- Modelled from the spec: the charting library operation that returns a
base64-encoded PNG raster of the chart (toBase64Image of Chart.js); the
encoding itself is produced by the external library, outside this
repository, so it is modelled as an opaque data URL of the chart. -/
def chartToBase64Image (_c : Chart) : String :=
  "data:image/png;base64,<chart raster>"

/-- Placeholder chart used only to totalise list lookup at a dangling
chart index, which never occurs in a reachable state. -/
def defaultChart : Chart := { config := mkChartConfig [] [], destroyed := true }

/-- The whole observable state of the page: the form inputs, every chart
object constructed so far in creation order, the chartInstance variable as
an index into that list, the alert messages shown and the downloads
initiated as pairs of payload and filename. -/
structure AppState where
  form : FormState
  charts : List Chart
  chartInstance : Option Nat
  alerts : List String
  downloads : List (String × String)

/-- Mark the chart at the given creation index as destroyed. -/
def destroyAt : List Chart → Nat → List Chart
  | [], _ => []
  | c :: cs, 0 => { c with destroyed := true } :: cs
  | c :: cs, n + 1 => c :: destroyAt cs n

/-- renderChart of script.js: validate and collect; on failure alert and
return without touching the chart; on success destroy the existing chart
if there is one, then construct a new chart from the collected data and
store it in chartInstance. -/
def renderChart (s : AppState) : AppState :=
  let vr := validateAndCollectData s.form
  if vr.2.isValid = false then
    { s with form := vr.1,
             alerts := s.alerts ++
               ["Please fix the validation errors before updating the chart."] }
  else
    let charts' :=
      match s.chartInstance with
      | some i => destroyAt s.charts i
      | none => s.charts
    { s with form := vr.1,
             charts := charts' ++
               [{ config := mkChartConfig vr.2.incomeData vr.2.expenseData,
                  destroyed := false }],
             chartInstance := some charts'.length }

/-- The click handler of the download button: without a chartInstance
alert and stop; otherwise take the base64 image of the current chart and
initiate a download of it under the fixed filename. -/
def downloadChart (s : AppState) : AppState :=
  match s.chartInstance with
  | none =>
    { s with alerts := s.alerts ++
        ["Please update the chart first before downloading."] }
  | some i =>
    let imageData := chartToBase64Image (s.charts.getD i defaultChart)
    { s with downloads := s.downloads ++ [(imageData, "budget-chart.png")] }

/-- Replace the text of the field at an index. -/
def setFieldValue : List Field → Nat → String → List Field
  | [], _, _ => []
  | f :: fs, 0, t => { f with value := t } :: fs
  | f :: fs, n + 1, t => f :: setFieldValue fs n t

/-- The external trigger events wired up in the onload handler, plus the
user editing a field text. -/
inductive Event where
  | updateClick
  | tabShown
  | downloadClick
  | setIncome (i : Nat) (t : String)
  | setExpense (i : Nat) (t : String)

/-- One event-handling turn: the update button and the tab-shown
notification both invoke renderChart, the download button invokes its
handler, and an edit replaces one field text. -/
def step (s : AppState) : Event → AppState
  | .updateClick => renderChart s
  | .tabShown => renderChart s
  | .downloadClick => downloadChart s
  | .setIncome i t =>
    { s with form := { s.form with
        incomeInputs := setFieldValue s.form.incomeInputs i t } }
  | .setExpense i t =>
    { s with form := { s.form with
        expenseInputs := setFieldValue s.form.expenseInputs i t } }

/-- A fresh input field. -/
def initField : Field := { value := "", isInvalid := false }

/-- The page state at load: twelve empty income and expense fields, no
chart constructed, no alert, no download. -/
def initState : AppState :=
  { form := { incomeInputs := List.replicate 12 initField,
              expenseInputs := List.replicate 12 initField },
    charts := [], chartInstance := none, alerts := [], downloads := [] }

/-- The state after a sequence of user events starting from page load. -/
def run (es : List Event) : AppState := es.foldl step initState

/-- Number of constructed charts that have not been destroyed. -/
def liveCount (s : AppState) : Nat :=
  (s.charts.filter (fun c => !c.destroyed)).length

theorem processField_eq (f : Field) (b : Bool) :
    processField f b = (markField f, fieldEntry f, b && !fieldInvalidB f) := by
  unfold processField markField fieldEntry fieldInvalidB
  by_cases h1 : jsTrim f.value = ""
  · simp [h1]
  · by_cases h2 : (jsIsNaN (jsTrim f.value) || (jsParseFloat (jsTrim f.value)).ltZero) = true
    · simp [h1, h2]
    · simp [h1, h2]

theorem collectSeries_eq (fs : List Field) (b : Bool) :
    collectSeries fs b =
      (fs.map markField, fs.map fieldEntry,
       b && fs.all (fun f => !fieldInvalidB f)) := by
  induction fs generalizing b with
  | nil => simp [collectSeries]
  | cons f fs ih =>
    simp [collectSeries, processField_eq, ih, Bool.and_assoc]

theorem validateAndCollectData_eq (s : FormState) :
    validateAndCollectData s =
      ({ incomeInputs := s.incomeInputs.map markField,
         expenseInputs := s.expenseInputs.map markField },
       { isValid := s.incomeInputs.all (fun f => !fieldInvalidB f) &&
                    s.expenseInputs.all (fun f => !fieldInvalidB f),
         incomeData := s.incomeInputs.map fieldEntry,
         expenseData := s.expenseInputs.map fieldEntry }) := by
  simp [validateAndCollectData, collectSeries_eq]

@[simp] theorem markField_value (f : Field) : (markField f).value = f.value := rfl

@[simp] theorem fieldInvalidB_markField (f : Field) :
    fieldInvalidB (markField f) = fieldInvalidB f := rfl

@[simp] theorem fieldEntry_markField (f : Field) :
    fieldEntry (markField f) = fieldEntry f := rfl

@[simp] theorem markField_markField (f : Field) :
    markField (markField f) = markField f := rfl

@[simp] theorem isInvalid_markField (f : Field) :
    (markField f).isInvalid = fieldInvalidB f := rfl

theorem fieldEntry_of_invalid (f : Field) (h : fieldInvalidB f = true) :
    fieldEntry f = JsNum.finite 0 := by
  unfold fieldInvalidB at h
  unfold fieldEntry
  by_cases h1 : jsTrim f.value = ""
  · simp [h1] at h
  · simp only [if_neg h1] at h ⊢
    simp [h]

theorem fieldEntry_of_valid (f : Field) (h0 : jsTrim f.value ≠ "")
    (h1 : jsIsNaN (jsTrim f.value) = false)
    (h2 : (jsParseFloat (jsTrim f.value)).ltZero = false) :
    fieldEntry f = jsParseFloat (jsTrim f.value) := by
  unfold fieldEntry
  simp [h0, h1, h2]

theorem fieldInvalidB_of_valid (f : Field) (h0 : jsTrim f.value ≠ "")
    (h1 : jsIsNaN (jsTrim f.value) = false)
    (h2 : (jsParseFloat (jsTrim f.value)).ltZero = false) :
    fieldInvalidB f = false := by
  unfold fieldInvalidB
  simp [h0, h1, h2]

theorem fieldInvalidB_of_empty (f : Field) (h0 : jsTrim f.value = "") :
    fieldInvalidB f = false := by
  unfold fieldInvalidB
  simp [h0]

theorem fieldEntry_of_empty (f : Field) (h0 : jsTrim f.value = "") :
    fieldEntry f = JsNum.finite 0 := by
  unfold fieldEntry
  simp [h0]

/-- C8: validateAndCollectData is idempotent: with unchanged field texts a
second call returns the same result record and leaves the same invalid
marker state on all fields, whatever the marker state before the first
call was. -/
theorem validateAndCollectData_idempotent (s : FormState) :
    validateAndCollectData (validateAndCollectData s).1 = validateAndCollectData s := by
  simp [validateAndCollectData_eq, List.map_map, Function.comp_def]

/-- C1: when all 12 income and 12 expense fields hold non-empty trimmed
texts that pass the numeric test and parse non-negative, the call returns
isValid true, the two data arrays are exactly the parseFloat values of the
trimmed texts in field order, and no field carries the invalid marker
afterwards. -/
theorem validate_all_numeric_ok (s : FormState)
    (_hli : s.incomeInputs.length = 12) (_hle : s.expenseInputs.length = 12)
    (hi : ∀ f ∈ s.incomeInputs, jsTrim f.value ≠ "" ∧
          jsIsNaN (jsTrim f.value) = false ∧
          (jsParseFloat (jsTrim f.value)).ltZero = false)
    (he : ∀ f ∈ s.expenseInputs, jsTrim f.value ≠ "" ∧
          jsIsNaN (jsTrim f.value) = false ∧
          (jsParseFloat (jsTrim f.value)).ltZero = false) :
    (validateAndCollectData s).2.isValid = true ∧
    (validateAndCollectData s).2.incomeData =
      s.incomeInputs.map (fun f => jsParseFloat (jsTrim f.value)) ∧
    (validateAndCollectData s).2.expenseData =
      s.expenseInputs.map (fun f => jsParseFloat (jsTrim f.value)) ∧
    (∀ f ∈ (validateAndCollectData s).1.incomeInputs, f.isInvalid = false) ∧
    (∀ f ∈ (validateAndCollectData s).1.expenseInputs, f.isInvalid = false) := by
  rw [validateAndCollectData_eq]
  refine ⟨?_, ?_, ?_, ?_, ?_⟩
  · simp only [Bool.and_eq_true, List.all_eq_true]
    constructor
    · intro f hf
      simp [fieldInvalidB_of_valid f (hi f hf).1 (hi f hf).2.1 (hi f hf).2.2]
    · intro f hf
      simp [fieldInvalidB_of_valid f (he f hf).1 (he f hf).2.1 (he f hf).2.2]
  · exact List.map_congr_left fun f hf =>
      fieldEntry_of_valid f (hi f hf).1 (hi f hf).2.1 (hi f hf).2.2
  · exact List.map_congr_left fun f hf =>
      fieldEntry_of_valid f (he f hf).1 (he f hf).2.1 (he f hf).2.2
  · intro f hf
    rcases List.mem_map.mp hf with ⟨g, hg, rfl⟩
    simp [fieldInvalidB_of_valid g (hi g hg).1 (hi g hg).2.1 (hi g hg).2.2]
  · intro f hf
    rcases List.mem_map.mp hf with ⟨g, hg, rfl⟩
    simp [fieldInvalidB_of_valid g (he g hg).1 (he g hg).2.1 (he g hg).2.2]

/-- C7: when all 24 fields are empty after trimming, the call returns
isValid true with both data arrays equal to twelve zeros and no invalid
marker set on any field. -/
theorem validate_all_empty_zeros (s : FormState)
    (hli : s.incomeInputs.length = 12) (hle : s.expenseInputs.length = 12)
    (hi : ∀ f ∈ s.incomeInputs, jsTrim f.value = "")
    (he : ∀ f ∈ s.expenseInputs, jsTrim f.value = "") :
    (validateAndCollectData s).2.isValid = true ∧
    (validateAndCollectData s).2.incomeData = List.replicate 12 (JsNum.finite 0) ∧
    (validateAndCollectData s).2.expenseData = List.replicate 12 (JsNum.finite 0) ∧
    (∀ f ∈ (validateAndCollectData s).1.incomeInputs, f.isInvalid = false) ∧
    (∀ f ∈ (validateAndCollectData s).1.expenseInputs, f.isInvalid = false) := by
  rw [validateAndCollectData_eq]
  refine ⟨?_, ?_, ?_, ?_, ?_⟩
  · simp only [Bool.and_eq_true, List.all_eq_true]
    exact ⟨fun f hf => by simp [fieldInvalidB_of_empty f (hi f hf)],
           fun f hf => by simp [fieldInvalidB_of_empty f (he f hf)]⟩
  · refine List.eq_replicate_iff.mpr ⟨by simpa using hli, ?_⟩
    intro b hb
    rcases List.mem_map.mp hb with ⟨g, hg, rfl⟩
    exact fieldEntry_of_empty g (hi g hg)
  · refine List.eq_replicate_iff.mpr ⟨by simpa using hle, ?_⟩
    intro b hb
    rcases List.mem_map.mp hb with ⟨g, hg, rfl⟩
    exact fieldEntry_of_empty g (he g hg)
  · intro f hf
    rcases List.mem_map.mp hf with ⟨g, hg, rfl⟩
    simp [fieldInvalidB_of_empty g (hi g hg)]
  · intro f hf
    rcases List.mem_map.mp hf with ⟨g, hg, rfl⟩
    simp [fieldInvalidB_of_empty g (he g hg)]

/-- C2: a field whose trimmed text is non-empty and fails the validity
test contributes 0 to its data array, gets the invalid marker, and forces
isValid to false; and every field, income or expense, is still processed
from its own text alone, so no field is skipped because another failed. -/
theorem validate_invalid_field_isolated (s : FormState) (k : Nat)
    (hk : (∃ f, s.incomeInputs[k]? = some f ∧ fieldInvalidB f = true) ∨
          (∃ f, s.expenseInputs[k]? = some f ∧ fieldInvalidB f = true)) :
    (validateAndCollectData s).2.isValid = false ∧
    ((∀ f, s.incomeInputs[k]? = some f → fieldInvalidB f = true →
        (validateAndCollectData s).2.incomeData[k]? = some (JsNum.finite 0) ∧
        ((validateAndCollectData s).1.incomeInputs[k]?).map Field.isInvalid =
          some true) ∧
     (∀ f, s.expenseInputs[k]? = some f → fieldInvalidB f = true →
        (validateAndCollectData s).2.expenseData[k]? = some (JsNum.finite 0) ∧
        ((validateAndCollectData s).1.expenseInputs[k]?).map Field.isInvalid =
          some true)) ∧
    (∀ j : Nat, (validateAndCollectData s).2.incomeData[j]? =
        (s.incomeInputs[j]?).map fieldEntry) ∧
    (∀ j : Nat, (validateAndCollectData s).2.expenseData[j]? =
        (s.expenseInputs[j]?).map fieldEntry) ∧
    (∀ j : Nat, ((validateAndCollectData s).1.incomeInputs[j]?).map Field.isInvalid =
        (s.incomeInputs[j]?).map fieldInvalidB) ∧
    (∀ j : Nat, ((validateAndCollectData s).1.expenseInputs[j]?).map Field.isInvalid =
        (s.expenseInputs[j]?).map fieldInvalidB) := by
  rw [validateAndCollectData_eq]
  refine ⟨?_, ⟨?_, ?_⟩, ?_, ?_, ?_, ?_⟩
  · rcases hk with ⟨f, hf, hbad⟩ | ⟨f, hf, hbad⟩
    · have hmem : f ∈ s.incomeInputs := List.getElem?_mem hf
      simp only [Bool.and_eq_false_iff, List.all_eq_false]
      exact Or.inl ⟨f, hmem, by simp [hbad]⟩
    · have hmem : f ∈ s.expenseInputs := List.getElem?_mem hf
      simp only [Bool.and_eq_false_iff, List.all_eq_false]
      exact Or.inr ⟨f, hmem, by simp [hbad]⟩
  · intro f hf hbad
    constructor
    · simp [List.getElem?_map, hf, fieldEntry_of_invalid f hbad]
    · simp [List.getElem?_map, hf, hbad]
  · intro f hf hbad
    constructor
    · simp [List.getElem?_map, hf, fieldEntry_of_invalid f hbad]
    · simp [List.getElem?_map, hf, hbad]
  · intro j; simp [List.getElem?_map]
  · intro j; simp [List.getElem?_map]
  · intro j
    simp only [List.getElem?_map]
    cases s.incomeInputs[j]? <;> rfl
  · intro j
    simp only [List.getElem?_map]
    cases s.expenseInputs[j]? <;> rfl

/-- C9: the validity test and the stored value use different parsers:
the text 0x10 passes the test (no invalid marker, the overall flag keeps
its value) although the stored parseFloat value 0 is not the value 16 the
isNaN test evaluated, and the text Infinity passes the test with the
non-finite value Infinity stored. -/
theorem validity_and_storage_parsers_differ :
    processField { value := "0x10", isInvalid := false } true =
      ({ value := "0x10", isInvalid := false }, JsNum.finite 0, true) ∧
    jsToNumber "0x10" = JsNum.finite (mkRat 16 1) ∧
    JsNum.finite (mkRat 16 1) ≠ JsNum.finite 0 ∧
    processField { value := "Infinity", isInvalid := false } true =
      ({ value := "Infinity", isInvalid := false }, JsNum.inf, true) ∧
    jsToNumber "Infinity" = JsNum.inf := by
  exact ⟨by decide, by decide, by decide, by decide, by decide⟩

theorem destroyAt_length (cs : List Chart) (i : Nat) :
    (destroyAt cs i).length = cs.length := by
  induction cs generalizing i with
  | nil => rfl
  | cons c cs ih =>
    cases i with
    | zero => simp [destroyAt]
    | succ n => simp [destroyAt, ih]

theorem destroyAt_append_singleton (xs : List Chart) (y : Chart) :
    destroyAt (xs ++ [y]) xs.length = xs ++ [{ y with destroyed := true }] := by
  induction xs with
  | nil => rfl
  | cons x xs ih => simp [destroyAt, ih]

theorem renderChart_invalid_eq (s : AppState)
    (hv : (validateAndCollectData s.form).2.isValid = false) :
    renderChart s =
      { s with form := (validateAndCollectData s.form).1,
               alerts := s.alerts ++
                 ["Please fix the validation errors before updating the chart."] } := by
  unfold renderChart
  rw [if_pos hv]

theorem renderChart_valid_eq (s : AppState)
    (hv : (validateAndCollectData s.form).2.isValid = true) :
    renderChart s =
      { s with form := (validateAndCollectData s.form).1,
               charts :=
                 (match s.chartInstance with
                  | some i => destroyAt s.charts i
                  | none => s.charts) ++
                 [{ config := mkChartConfig
                      (validateAndCollectData s.form).2.incomeData
                      (validateAndCollectData s.form).2.expenseData,
                    destroyed := false }],
               chartInstance := some
                 (match s.chartInstance with
                  | some i => destroyAt s.charts i
                  | none => s.charts).length } := by
  unfold renderChart
  rw [if_neg (by simp [hv])]

/-- The chart lifecycle invariant: either no chartInstance exists and every
chart constructed so far is destroyed, or chartInstance refers to the most
recently constructed chart, that chart is not destroyed, and every earlier
chart is destroyed. -/
def ChartInv (s : AppState) : Prop :=
  (s.chartInstance = none ∧ ∀ c ∈ s.charts, c.destroyed = true) ∨
  (∃ pre lst, s.charts = pre ++ [lst] ∧ s.chartInstance = some pre.length ∧
     lst.destroyed = false ∧ ∀ c ∈ pre, c.destroyed = true)

theorem chartInv_renderChart (s : AppState) (h : ChartInv s) :
    ChartInv (renderChart s) := by
  by_cases hv : (validateAndCollectData s.form).2.isValid = false
  · rw [renderChart_invalid_eq s hv]; exact h
  · have hv' : (validateAndCollectData s.form).2.isValid = true := by
      cases hb : (validateAndCollectData s.form).2.isValid
      · exact absurd hb hv
      · rfl
    rw [renderChart_valid_eq s hv']
    rcases h with ⟨hnone, hall⟩ | ⟨pre, lst, hch, hinst, hlive, hpre⟩
    · exact Or.inr ⟨s.charts,
        { config := mkChartConfig (validateAndCollectData s.form).2.incomeData
            (validateAndCollectData s.form).2.expenseData, destroyed := false },
        by simp [hnone], by simp [hnone], rfl, hall⟩
    · refine Or.inr ⟨pre ++ [{ lst with destroyed := true }],
        { config := mkChartConfig (validateAndCollectData s.form).2.incomeData
            (validateAndCollectData s.form).2.expenseData, destroyed := false },
        ?_, ?_, rfl, ?_⟩
      · simp only [hinst, hch, destroyAt_append_singleton]
      · simp only [hinst, hch, destroyAt_append_singleton]
      · intro c hc
        rcases List.mem_append.mp hc with hc | hc
        · exact hpre c hc
        · rw [List.mem_singleton.mp hc]

theorem downloadChart_charts (s : AppState) : (downloadChart s).charts = s.charts := by
  unfold downloadChart
  cases s.chartInstance <;> rfl

theorem downloadChart_chartInstance (s : AppState) :
    (downloadChart s).chartInstance = s.chartInstance := by
  unfold downloadChart
  cases s.chartInstance <;> rfl

theorem chartInv_congr (s t : AppState) (hc : t.charts = s.charts)
    (hi : t.chartInstance = s.chartInstance) (h : ChartInv s) : ChartInv t := by
  unfold ChartInv at *
  rw [hc, hi]
  exact h

theorem chartInv_step (s : AppState) (e : Event) (h : ChartInv s) :
    ChartInv (step s e) := by
  cases e with
  | updateClick => exact chartInv_renderChart s h
  | tabShown => exact chartInv_renderChart s h
  | downloadClick =>
    exact chartInv_congr s _ (downloadChart_charts s) (downloadChart_chartInstance s) h
  | setIncome i t => exact h
  | setExpense i t => exact h

theorem chartInv_initState : ChartInv initState :=
  Or.inl ⟨rfl, by intro c hc; cases hc⟩

theorem chartInv_run (es : List Event) : ChartInv (run es) := by
  suffices h : ∀ (ms : List Event) (s : AppState), ChartInv s →
      ChartInv (ms.foldl step s) from h es initState chartInv_initState
  intro ms
  induction ms with
  | nil => exact fun s h => h
  | cons m ms ih => exact fun s h => ih _ (chartInv_step s m h)

theorem bool_eq_true_of_not_false (b : Bool) (h : ¬b = false) : b = true := by
  cases b
  · exact absurd rfl h
  · rfl

theorem liveCount_of_inv (s : AppState) (h : ChartInv s) :
    liveCount s = if s.chartInstance.isSome then 1 else 0 := by
  rcases h with ⟨hnone, hall⟩ | ⟨pre, lst, hch, hinst, hlive, hpre⟩
  · have : s.charts.filter (fun c => !c.destroyed) = [] := by
      rw [List.filter_eq_nil_iff]
      intro c hc
      simp [hall c hc]
    simp [liveCount, this, hnone]
  · have h1 : pre.filter (fun c => !c.destroyed) = [] := by
      rw [List.filter_eq_nil_iff]
      intro c hc
      simp [hpre c hc]
    simp [liveCount, hch, hinst, List.filter_append, h1, hlive]

/-- C3: when validation fails, renderChart shows exactly one error alert
with the fixed message and returns without constructing a chart or
touching the existing chart state: the chart list, the chartInstance
reference and the count of live charts are unchanged. -/
theorem renderChart_blocked_on_invalid (s : AppState)
    (hv : (validateAndCollectData s.form).2.isValid = false) :
    (renderChart s).alerts = s.alerts ++
      ["Please fix the validation errors before updating the chart."] ∧
    (renderChart s).charts = s.charts ∧
    (renderChart s).chartInstance = s.chartInstance ∧
    liveCount (renderChart s) = liveCount s := by
  rw [renderChart_invalid_eq s hv]
  exact ⟨rfl, rfl, rfl, rfl⟩

/-- C4: in every state reachable from page load, at most one constructed
chart is live; whenever a chartInstance exists exactly one chart is live;
and when renderChart constructs a new chart from such a state, the chart
previously referenced by chartInstance is destroyed in the resulting
state. -/
theorem at_most_one_live_chart (es : List Event) :
    liveCount (run es) ≤ 1 ∧
    (∀ i, (run es).chartInstance = some i → liveCount (run es) = 1) ∧
    (∀ i, (run es).chartInstance = some i →
      (renderChart (run es)).charts.length = (run es).charts.length + 1 →
      ((renderChart (run es)).charts[i]?).map Chart.destroyed = some true) := by
  have hinv := chartInv_run es
  have hlc := liveCount_of_inv (run es) hinv
  refine ⟨?_, ?_, ?_⟩
  · rw [hlc]
    split <;> simp
  · intro i hi
    rw [hlc, hi]
    rfl
  · intro i hi hgrow
    rcases hinv with ⟨hnone, _⟩ | ⟨pre, lst, hch, hinst, hlive, hpre⟩
    · rw [hnone] at hi
      cases hi
    · have hi' : i = pre.length := by
        rw [hinst] at hi
        exact (Option.some.inj hi).symm
      by_cases hv : (validateAndCollectData (run es).form).2.isValid = false
      · rw [renderChart_invalid_eq _ hv] at hgrow
        exact absurd hgrow (by simp)
      · have hv' := bool_eq_true_of_not_false _ hv
        rw [renderChart_valid_eq _ hv']
        simp only [hinst, hch, destroyAt_append_singleton]
        subst hi'
        rw [List.getElem?_append, if_pos (by simp), List.getElem?_concat_length]
        rfl

/-- C5: from a valid pair of 12-element input vectors, renderChart adds
exactly one chart, stores it as the current chartInstance, and its
configuration is a bar chart with the twelve month labels in order, the
two datasets Income and Expenses holding the collected values in order,
a value axis beginning at zero whose ticks are the value formatted with a
leading dollar sign and thousands separators, and a tooltip of the form
label, colon, dollar sign, formatted value. -/
theorem renderChart_valid_builds_config (s : AppState)
    (hv : (validateAndCollectData s.form).2.isValid = true)
    (h1 : s.form.incomeInputs.length = 12) (h2 : s.form.expenseInputs.length = 12) :
    (renderChart s).charts.length = s.charts.length + 1 ∧
    (renderChart s).charts.getLast? = some
      { config := mkChartConfig (validateAndCollectData s.form).2.incomeData
          (validateAndCollectData s.form).2.expenseData,
        destroyed := false } ∧
    (validateAndCollectData s.form).2.incomeData.length = 12 ∧
    (validateAndCollectData s.form).2.expenseData.length = 12 ∧
    (mkChartConfig (validateAndCollectData s.form).2.incomeData
        (validateAndCollectData s.form).2.expenseData).type = "bar" ∧
    (mkChartConfig (validateAndCollectData s.form).2.incomeData
        (validateAndCollectData s.form).2.expenseData).labels =
      ["Jan", "Feb", "Mar", "Apr", "May", "Jun",
       "Jul", "Aug", "Sep", "Oct", "Nov", "Dec"] ∧
    (mkChartConfig (validateAndCollectData s.form).2.incomeData
        (validateAndCollectData s.form).2.expenseData).datasets.map Dataset.label =
      ["Income", "Expenses"] ∧
    (mkChartConfig (validateAndCollectData s.form).2.incomeData
        (validateAndCollectData s.form).2.expenseData).datasets.map Dataset.data =
      [(validateAndCollectData s.form).2.incomeData,
       (validateAndCollectData s.form).2.expenseData] ∧
    (mkChartConfig (validateAndCollectData s.form).2.incomeData
        (validateAndCollectData s.form).2.expenseData).beginAtZero = true ∧
    (∀ v, (mkChartConfig (validateAndCollectData s.form).2.incomeData
        (validateAndCollectData s.form).2.expenseData).yTicksCallback v =
      "$" ++ jsToLocaleString v) ∧
    (∀ ctx, (mkChartConfig (validateAndCollectData s.form).2.incomeData
        (validateAndCollectData s.form).2.expenseData).tooltipLabel ctx =
      ctx.datasetLabel ++ ": $" ++ jsToLocaleString ctx.parsedY) := by
  refine ⟨?_, ?_, ?_, ?_, rfl, rfl, rfl, rfl, rfl, fun v => rfl, fun ctx => rfl⟩
  · rw [renderChart_valid_eq s hv]
    cases s.chartInstance <;> simp [destroyAt_length]
  · rw [renderChart_valid_eq s hv]
    simp only [List.getLast?_concat]
  · simp [validateAndCollectData_eq, h1]
  · simp [validateAndCollectData_eq, h2]

/-- C6: the download handler shows the blocking error and initiates no
download exactly when no chartInstance exists; otherwise it leaves the
alerts alone and initiates exactly one download whose payload is the
base64 image encoding of the current chart and whose filename is
budget-chart.png. -/
theorem download_iff_chart_exists (s : AppState) :
    (s.chartInstance = none →
      (downloadChart s).alerts = s.alerts ++
        ["Please update the chart first before downloading."] ∧
      (downloadChart s).downloads = s.downloads) ∧
    (∀ i, s.chartInstance = some i →
      (downloadChart s).alerts = s.alerts ∧
      (downloadChart s).downloads = s.downloads ++
        [(chartToBase64Image (s.charts.getD i defaultChart), "budget-chart.png")]) := by
  constructor
  · intro h
    unfold downloadChart
    rw [h]
    exact ⟨rfl, rfl⟩
  · intro i h
    unfold downloadChart
    rw [h]
    exact ⟨rfl, rfl⟩

theorem renderChart_instance_isSome (s : AppState)
    (h : (s.chartInstance).isSome = true) :
    ((renderChart s).chartInstance).isSome = true := by
  by_cases hv : (validateAndCollectData s.form).2.isValid = false
  · rw [renderChart_invalid_eq s hv]
    exact h
  · rw [renderChart_valid_eq s (bool_eq_true_of_not_false _ hv)]
    rfl

theorem step_preserves_instance (s : AppState) (e : Event)
    (h : (s.chartInstance).isSome = true) :
    ((step s e).chartInstance).isSome = true := by
  cases e with
  | updateClick => exact renderChart_instance_isSome s h
  | tabShown => exact renderChart_instance_isSome s h
  | downloadClick =>
    rw [show (step s Event.downloadClick) = downloadChart s from rfl,
        downloadChart_chartInstance]
    exact h
  | setIncome i t => exact h
  | setExpense i t => exact h

/-- C10: once a render has succeeded, the chartInstance reference is never
null again under any further sequence of events, so the download
precondition error can only occur before the first successful render: with
a chartInstance present the download handler adds no alert. -/
theorem chartInstance_persists_after_first_render (es more : List Event)
    (h : ((run es).chartInstance).isSome = true) :
    ((run (es ++ more)).chartInstance).isSome = true ∧
    (downloadChart (run (es ++ more))).alerts = (run (es ++ more)).alerts := by
  have key : ∀ (ms : List Event) (s : AppState), (s.chartInstance).isSome = true →
      ((ms.foldl step s).chartInstance).isSome = true := by
    intro ms
    induction ms with
    | nil => exact fun s h => h
    | cons m ms ih => exact fun s h => ih _ (step_preserves_instance s m h)
  have hrun : run (es ++ more) = more.foldl step (run es) := by
    simp [run, List.foldl_append]
  have hsome : ((run (es ++ more)).chartInstance).isSome = true := by
    rw [hrun]
    exact key more (run es) h
  refine ⟨hsome, ?_⟩
  unfold downloadChart
  cases hi : (run (es ++ more)).chartInstance with
  | none => rw [hi] at hsome; cases hsome
  | some i => rfl

/-- A form in which every field holds a numeric text. -/
def sampleNumericForm : FormState :=
  { incomeInputs := List.replicate 12 { value := "100", isInvalid := true },
    expenseInputs := List.replicate 12 { value := " 2.5 ", isInvalid := false } }

/-- Witness for C1 at a concrete all-numeric form. -/
theorem validate_all_numeric_ok_witness :
    (validateAndCollectData sampleNumericForm).2.isValid = true ∧
    (validateAndCollectData sampleNumericForm).2.incomeData =
      sampleNumericForm.incomeInputs.map (fun f => jsParseFloat (jsTrim f.value)) ∧
    (validateAndCollectData sampleNumericForm).2.expenseData =
      sampleNumericForm.expenseInputs.map (fun f => jsParseFloat (jsTrim f.value)) ∧
    (∀ f ∈ (validateAndCollectData sampleNumericForm).1.incomeInputs,
      f.isInvalid = false) ∧
    (∀ f ∈ (validateAndCollectData sampleNumericForm).1.expenseInputs,
      f.isInvalid = false) :=
  validate_all_numeric_ok sampleNumericForm (by decide) (by decide) (by decide) (by decide)

/-- A form in which every field is empty or whitespace. -/
def sampleEmptyForm : FormState :=
  { incomeInputs := List.replicate 12 { value := "  ", isInvalid := true },
    expenseInputs := List.replicate 12 { value := "", isInvalid := true } }

/-- Witness for C7 at a concrete all-empty form. -/
theorem validate_all_empty_zeros_witness :
    (validateAndCollectData sampleEmptyForm).2.isValid = true ∧
    (validateAndCollectData sampleEmptyForm).2.incomeData =
      List.replicate 12 (JsNum.finite 0) ∧
    (validateAndCollectData sampleEmptyForm).2.expenseData =
      List.replicate 12 (JsNum.finite 0) ∧
    (∀ f ∈ (validateAndCollectData sampleEmptyForm).1.incomeInputs,
      f.isInvalid = false) ∧
    (∀ f ∈ (validateAndCollectData sampleEmptyForm).1.expenseInputs,
      f.isInvalid = false) :=
  validate_all_empty_zeros sampleEmptyForm (by decide) (by decide) (by decide) (by decide)

/-- A form with a negative income text in its first field, a non-numeric
income text in its second, and a valid expense field. -/
def sampleInvalidForm : FormState :=
  { incomeInputs := [{ value := "-5", isInvalid := false },
                     { value := "abc", isInvalid := false },
                     { value := "", isInvalid := true }],
    expenseInputs := [{ value := "3", isInvalid := false }] }

/-- Witness for C2 at a concrete form with an invalid first income field. -/
theorem validate_invalid_field_isolated_witness :
    (validateAndCollectData sampleInvalidForm).2.isValid = false ∧
    ((∀ f, sampleInvalidForm.incomeInputs[0]? = some f → fieldInvalidB f = true →
        (validateAndCollectData sampleInvalidForm).2.incomeData[0]? =
          some (JsNum.finite 0) ∧
        ((validateAndCollectData sampleInvalidForm).1.incomeInputs[0]?).map
          Field.isInvalid = some true) ∧
     (∀ f, sampleInvalidForm.expenseInputs[0]? = some f → fieldInvalidB f = true →
        (validateAndCollectData sampleInvalidForm).2.expenseData[0]? =
          some (JsNum.finite 0) ∧
        ((validateAndCollectData sampleInvalidForm).1.expenseInputs[0]?).map
          Field.isInvalid = some true)) ∧
    (∀ j : Nat, (validateAndCollectData sampleInvalidForm).2.incomeData[j]? =
        (sampleInvalidForm.incomeInputs[j]?).map fieldEntry) ∧
    (∀ j : Nat, (validateAndCollectData sampleInvalidForm).2.expenseData[j]? =
        (sampleInvalidForm.expenseInputs[j]?).map fieldEntry) ∧
    (∀ j : Nat, ((validateAndCollectData sampleInvalidForm).1.incomeInputs[j]?).map
        Field.isInvalid = (sampleInvalidForm.incomeInputs[j]?).map fieldInvalidB) ∧
    (∀ j : Nat, ((validateAndCollectData sampleInvalidForm).1.expenseInputs[j]?).map
        Field.isInvalid = (sampleInvalidForm.expenseInputs[j]?).map fieldInvalidB) :=
  validate_invalid_field_isolated sampleInvalidForm 0
    (Or.inl ⟨{ value := "-5", isInvalid := false }, by decide, by decide⟩)

/-- The page state with the invalid sample form loaded and no chart yet. -/
def sampleInvalidApp : AppState :=
  { form := sampleInvalidForm, charts := [], chartInstance := none,
    alerts := [], downloads := [] }

/-- Witness for C3 at a concrete state whose form fails validation. -/
theorem renderChart_blocked_on_invalid_witness :
    (renderChart sampleInvalidApp).alerts = sampleInvalidApp.alerts ++
      ["Please fix the validation errors before updating the chart."] ∧
    (renderChart sampleInvalidApp).charts = sampleInvalidApp.charts ∧
    (renderChart sampleInvalidApp).chartInstance = sampleInvalidApp.chartInstance ∧
    liveCount (renderChart sampleInvalidApp) = liveCount sampleInvalidApp :=
  renderChart_blocked_on_invalid sampleInvalidApp (by decide)

/-- Witness for C4 after one successful render from page load. -/
theorem at_most_one_live_chart_witness :
    liveCount (run [Event.updateClick]) = 1 ∧
    ((renderChart (run [Event.updateClick])).charts[0]?).map Chart.destroyed =
      some true :=
  ⟨(at_most_one_live_chart [Event.updateClick]).2.1 0 rfl,
   (at_most_one_live_chart [Event.updateClick]).2.2 0 rfl rfl⟩

/-- The page state with twelve 1000 income fields and twelve 500 expense
fields and no chart yet. -/
def sampleValidApp : AppState :=
  { form := { incomeInputs := List.replicate 12 { value := "1000", isInvalid := false },
              expenseInputs := List.replicate 12 { value := "500", isInvalid := false } },
    charts := [], chartInstance := none, alerts := [], downloads := [] }

/-- Witness for C5 at a concrete valid state, including the concrete
tooltip text Income: $1,000 and the concrete tick text $1,000. -/
theorem renderChart_valid_builds_config_witness :
    (renderChart sampleValidApp).charts.length = sampleValidApp.charts.length + 1 ∧
    (renderChart sampleValidApp).charts.getLast? = some
      { config := mkChartConfig (validateAndCollectData sampleValidApp.form).2.incomeData
          (validateAndCollectData sampleValidApp.form).2.expenseData,
        destroyed := false } ∧
    (mkChartConfig (validateAndCollectData sampleValidApp.form).2.incomeData
        (validateAndCollectData sampleValidApp.form).2.expenseData).tooltipLabel
      { datasetLabel := "Income", parsedY := JsNum.finite (mkRat 1000 1) } =
      "Income: $1,000" ∧
    (mkChartConfig (validateAndCollectData sampleValidApp.form).2.incomeData
        (validateAndCollectData sampleValidApp.form).2.expenseData).yTicksCallback
      (JsNum.finite (mkRat 1000 1)) = "$1,000" :=
  ⟨(renderChart_valid_builds_config sampleValidApp (by decide) rfl rfl).1,
   (renderChart_valid_builds_config sampleValidApp (by decide) rfl rfl).2.1,
   by decide, by decide⟩

/-- Witness for C6: at page load the handler alerts and downloads nothing;
after one successful render it downloads the current chart image under the
fixed filename and adds no alert. -/
theorem download_iff_chart_exists_witness :
    ((downloadChart initState).alerts = initState.alerts ++
       ["Please update the chart first before downloading."] ∧
     (downloadChart initState).downloads = initState.downloads) ∧
    ((downloadChart (run [Event.updateClick])).alerts =
       (run [Event.updateClick]).alerts ∧
     (downloadChart (run [Event.updateClick])).downloads =
       (run [Event.updateClick]).downloads ++
       [(chartToBase64Image ((run [Event.updateClick]).charts.getD 0 defaultChart),
         "budget-chart.png")]) :=
  ⟨(download_iff_chart_exists initState).1 rfl,
   (download_iff_chart_exists (run [Event.updateClick])).2 0 rfl⟩

/-- Witness for C10: after a successful render, further download and
render events leave a chartInstance present, and the download handler
then adds no alert. -/
theorem chartInstance_persists_witness :
    ((run ([Event.updateClick] ++ [Event.downloadClick, Event.tabShown])).chartInstance).isSome
      = true ∧
    (downloadChart
        (run ([Event.updateClick] ++ [Event.downloadClick, Event.tabShown]))).alerts =
      (run ([Event.updateClick] ++ [Event.downloadClick, Event.tabShown])).alerts :=
  chartInstance_persists_after_first_render [Event.updateClick]
    [Event.downloadClick, Event.tabShown] rfl

example : jsParseFloat "12.5" = JsNum.finite (mkRat 25 2) := by decide
example : jsParseFloat "0x10" = JsNum.finite (mkRat 0 1) := by decide
example : jsParseFloat "Infinity" = JsNum.inf := by decide
example : jsParseFloat "-3e2" = JsNum.finite (mkRat (-300) 1) := by decide
example : jsParseFloat "abc" = JsNum.nan := by decide
example : jsParseFloat "  7 " = JsNum.finite (mkRat 7 1) := by decide
example : jsParseFloat "5..2" = JsNum.finite (mkRat 5 1) := by decide
example : jsParseFloat "1e" = JsNum.finite (mkRat 1 1) := by decide
example : jsToNumber "0x10" = JsNum.finite (mkRat 16 1) := by decide
example : jsToNumber "" = JsNum.finite 0 := by decide
example : jsToNumber "-0x10" = JsNum.nan := by decide
example : jsParseFloat "-.5e1" = JsNum.finite (mkRat (-5) 1) := by decide
example : jsIsNaN "Infinity" = false := by decide
example : jsIsNaN "5x" = true := by decide
example : jsIsNaN "1e" = true := by decide
example : jsIsNaN "-12.25" = false := by decide
example : jsIsNaN "0b101" = false := by decide
example : jsTrim "  ab c  " = "ab c" := by decide
example : jsToLocaleString (JsNum.finite (mkRat 1000 1)) = "1,000" := by decide
example : jsToLocaleString (JsNum.finite (mkRat 1234567 1)) = "1,234,567" := by decide
example : jsToLocaleString (JsNum.finite (mkRat 21 2)) = "10.5" := by decide
example : jsToLocaleString (JsNum.finite (mkRat 105 100)) = "1.05" := by decide
example : jsToLocaleString (JsNum.finite (mkRat (-1500) 1)) = "-1,500" := by decide
example : jsToLocaleString (JsNum.finite (mkRat 0 1)) = "0" := by decide

end Budget
